import Mathlib

/-!
# samples-dbus: the server's message handler (`dbus-server.c`)

A shallow embedding of `server_message_handler` and its two property
sub-handlers.  The handler talks to libdbus and to the GLib main loop; both
are modelled by an explicit `World` that is threaded through every call:

* every library call that can fail for lack of memory draws its outcome from
  `World.oracle` (call number `n` succeeds iff `oracle n = true`);
* everything observable that the handler does is appended to `World.trace`:
  message objects created and released, messages queued on the connection,
  and the request to leave the main loop.

The C code mutates the message behind `DBusMessage *reply`; here a library
call that changes the message returns the changed object and the caller
rebinds `reply`.  The `fprintf` lines and `dbus_error_init`/`dbus_error_free`
touch nothing that is modelled and are left out; a set `DBusError` is an
`Option DBusError` that is `some`.
-/

namespace DBusServer

/-! ## Data model -/

/-- The three results of a libdbus message handler (`DBusHandlerResult`). -/
inductive DBusHandlerResult
  | HANDLED
  | NOT_YET_HANDLED
  | NEED_MEMORY
  deriving DecidableEq, Repr

/-- The four D-Bus message types. -/
inductive MessageType
  | METHOD_CALL
  | METHOD_RETURN
  | ERROR
  | SIGNAL
  deriving DecidableEq, Repr

/-- Message arguments.  `dict` is an `a{sv}` array of dictionary entries whose
variants each hold a string, the only container this server builds. -/
inductive Arg
  | string (s : String)
  | int32 (n : Int)
  | boolean (b : Bool)
  | dict (entries : List (String × String))
  deriving DecidableEq, Repr

/-- The header fields and body of a D-Bus message.  `interface`, `path` and
`member` may be absent from a message header. -/
structure DBusMessage where
  type : MessageType
  path : Option String
  interface : Option String
  member : Option String
  error_name : Option String
  reply_serial : Option Nat
  destination : Option String
  sender : Option String
  serial : Nat
  args : List Arg
  deriving DecidableEq, Repr

/-- A message object allocated by the handler (`DBusMessage *`), identified by
`id` so that its creation, sending and release can be followed in the trace. -/
structure MsgObj where
  id : Nat
  msg : DBusMessage
  deriving DecidableEq, Repr

/-- A set `DBusError`: its name and message. -/
structure DBusError where
  name : String
  message : String
  deriving DecidableEq, Repr

/-- What the handler does to the outside, in the order it does it: a message
object is created (or its creation fails), an append to it fails, it is queued
on the connection (or queueing fails), it is released, and the main loop is
asked to quit. -/
inductive Event
  | created (id : Nat)
  | createFailed
  | appendFailed (id : Nat)
  | sent (id : Nat) (msg : DBusMessage)
  | sendFailed (id : Nat)
  | unref (id : Nat)
  | quit
  deriving DecidableEq, Repr

/-- The state threaded through the handler: the outcomes of the fallible
library calls, how many were made, the next fresh object id, and the trace. -/
structure World where
  oracle : Nat → Bool
  calls : Nat
  next_id : Nat
  trace : List Event

/-! ## Constants of the server -/

/-- The global `const char *version = "0.1"`. -/
def version : String := "0.1"

def DBUS_INTERFACE_INTROSPECTABLE : String := "org.freedesktop.DBus.Introspectable"

def DBUS_INTERFACE_PROPERTIES : String := "org.freedesktop.DBus.Properties"

def DBUS_ERROR_INVALID_ARGS : String := "org.freedesktop.DBus.Error.InvalidArgs"

/-- The libdbus macro `DBUS_INTROSPECT_1_0_XML_DOCTYPE_DECL_NODE`. -/
def DBUS_INTROSPECT_1_0_XML_DOCTYPE_DECL_NODE : String :=
  "<!DOCTYPE node PUBLIC \x22-//freedesktop//DTD D-BUS Object Introspection 1.0//EN\x22\n" ++
  "\x22http://www.freedesktop.org/standards/dbus/1.0/introspect.dtd\x22>\n"

/-- The global `server_introspection_xml`. -/
def server_introspection_xml : String :=
  DBUS_INTROSPECT_1_0_XML_DOCTYPE_DECL_NODE ++
  "<node>\n" ++
  "  <interface name='org.freedesktop.DBus.Introspectable'>\n" ++
  "    <method name='Introspect'>\n" ++
  "      <arg name='data' type='s' direction='out' />\n" ++
  "    </method>\n" ++
  "  </interface>\n" ++
  "  <interface name='org.freedesktop.DBus.Properties'>\n" ++
  "    <method name='Get'>\n" ++
  "      <arg name='interface' type='s' direction='in' />\n" ++
  "      <arg name='property'  type='s' direction='in' />\n" ++
  "      <arg name='value'     type='s' direction='out' />\n" ++
  "    </method>\n" ++
  "    <method name='GetAll'>\n" ++
  "      <arg name='interface'  type='s'     direction='in'/>\n" ++
  "      <arg name='properties' type='a\x7bsv\x7d' direction='out'/>\n" ++
  "    </method>\n" ++
  "  </interface>\n" ++
  "  <interface name='org.example.TestInterface'>\n" ++
  "    <property name='Version' type='s' access='read' />\n" ++
  "    <method name='Ping' >\n" ++
  "      <arg type='s' direction='out' />\n" ++
  "    </method>\n" ++
  "    <method name='Echo'>\n" ++
  "      <arg name='string' direction='in' type='s'/>\n" ++
  "      <arg type='s' direction='out' />\n" ++
  "    </method>\n" ++
  "    <method name='EmitSignal'>\n" ++
  "    </method>\n" ++
  "    <method name='Quit'>\n" ++
  "    </method>\n" ++
  "    <signal name='OnEmitSignal'>\n" ++
  "    </signal>" ++
  "  </interface>\n" ++
  "</node>\n"

/-! ## The library calls the handler makes -/

/-- Outcome of the next fallible library call. -/
def World.next_ok (w : World) : Bool := w.oracle w.calls

/-- Library function `dbus_message_is_method_call`.  Its documentation: "If the
message is not DBUS_MESSAGE_TYPE_METHOD_CALL, or has a different interface or
member field, returns FALSE.  If the interface field is missing, then it will
be assumed equal to the provided interface." -/
def dbus_message_is_method_call (message : DBusMessage) (iface method : String) : Bool :=
  message.type == MessageType.METHOD_CALL &&
  message.member == some method &&
  (message.interface == none || message.interface == some iface)

/-- The name libdbus prints for the type of an argument (`invalid` where the
message has no argument left). -/
def arg_type_name : Option Arg → String
  | none => "invalid"
  | some (Arg.string _) => "string"
  | some (Arg.int32 _) => "int32"
  | some (Arg.boolean _) => "boolean"
  | some (Arg.dict _) => "array"

/-- The `DBusError` that `dbus_message_get_args` sets when argument `i`, asked
for as a string, has another type or is not there when decoding starts. -/
def not_a_string (i : Nat) (found : Option Arg) : DBusError :=
  { name := DBUS_ERROR_INVALID_ARGS,
    message := "Argument " ++ toString i ++
      " is specified to be of type \x22string\x22, but is actually of type \x22" ++
      arg_type_name found ++ "\x22\n" }

/-- The `DBusError` that `dbus_message_get_args` sets when the message ends
after `n` arguments and more were asked for. -/
def too_few_args (n : Nat) : DBusError :=
  { name := DBUS_ERROR_INVALID_ARGS,
    message := "Message has only " ++ toString n ++ " arguments, but more were expected" }

/-- Library call `dbus_message_get_args(message, &err, DBUS_TYPE_STRING, &s,
DBUS_TYPE_INVALID)`: the first argument must be a string; arguments after the
requested ones are not looked at.  A failure sets the error (here: returns it). -/
def dbus_message_get_args_s (message : DBusMessage) : Except DBusError String :=
  match message.args with
  | Arg.string s :: _ => Except.ok s
  | other => Except.error (not_a_string 0 other.head?)

/-- Library call `dbus_message_get_args(message, &err, DBUS_TYPE_STRING, &a,
DBUS_TYPE_STRING, &b, DBUS_TYPE_INVALID)`: the first two arguments must be
strings. -/
def dbus_message_get_args_ss (message : DBusMessage) : Except DBusError (String × String) :=
  match message.args with
  | Arg.string a :: rest =>
    match rest with
    | Arg.string b :: _ => Except.ok (a, b)
    | [] => Except.error (too_few_args 1)
    | other :: _ => Except.error (not_a_string 1 (some other))
  | other => Except.error (not_a_string 0 other.head?)

/-- A method return answering `call` (reply serial and destination taken from
the call) with the given arguments. -/
def method_return (call : DBusMessage) (args : List Arg) : DBusMessage :=
  { type := MessageType.METHOD_RETURN, path := none, interface := none, member := none,
    error_name := none, reply_serial := some call.serial, destination := call.sender,
    sender := none, serial := 0, args := args }

/-- An error reply answering `call`: the error name, and the error message as
its one argument. -/
def error_reply (call : DBusMessage) (name message : String) : DBusMessage :=
  { type := MessageType.ERROR, path := none, interface := none, member := none,
    error_name := some name, reply_serial := some call.serial, destination := call.sender,
    sender := none, serial := 0, args := [Arg.string message] }

/-- A signal: path, interface and member, no destination, no arguments. -/
def signal_message (path iface name : String) : DBusMessage :=
  { type := MessageType.SIGNAL, path := some path, interface := some iface,
    member := some name, error_name := none, reply_serial := none, destination := none,
    sender := none, serial := 0, args := [] }

/-- Library call `dbus_message_new_method_return(call)`: a fresh, empty method
return addressed to the caller, or `NULL` when memory is short. -/
def dbus_message_new_method_return (call : DBusMessage) (w : World) : Option MsgObj × World :=
  let ok := w.next_ok
  (if ok then some { id := w.next_id, msg := method_return call [] } else none,
   { w with calls := w.calls + 1,
            next_id := if ok then w.next_id + 1 else w.next_id,
            trace := w.trace ++ [if ok then Event.created w.next_id else Event.createFailed] })

/-- Library call `dbus_message_new_error(call, name, message)`: a fresh error
reply carrying the error name and, as its one argument, the error message. -/
def dbus_message_new_error (call : DBusMessage) (name message : String) (w : World) :
    Option MsgObj × World :=
  let ok := w.next_ok
  (if ok then some { id := w.next_id, msg := error_reply call name message } else none,
   { w with calls := w.calls + 1,
            next_id := if ok then w.next_id + 1 else w.next_id,
            trace := w.trace ++ [if ok then Event.created w.next_id else Event.createFailed] })

/-- Library call `dbus_message_new_signal(path, iface, name)`: a fresh signal
with no destination and no arguments. -/
def dbus_message_new_signal (path iface name : String) (w : World) : Option MsgObj × World :=
  let ok := w.next_ok
  (if ok then some { id := w.next_id, msg := signal_message path iface name } else none,
   { w with calls := w.calls + 1,
            next_id := if ok then w.next_id + 1 else w.next_id,
            trace := w.trace ++ [if ok then Event.created w.next_id else Event.createFailed] })

/-- Library call `dbus_message_append_args(reply, ...)`: appends the arguments,
or returns `FALSE` and appends nothing when memory is short. -/
def dbus_message_append_args (reply : MsgObj) (args : List Arg) (w : World) :
    Bool × MsgObj × World :=
  let ok := w.next_ok
  (ok,
   { reply with msg := { reply.msg with args := if ok then reply.msg.args ++ args
                                                else reply.msg.args } },
   { w with calls := w.calls + 1,
            trace := w.trace ++ (if ok then [] else [Event.appendFailed reply.id]) })

/-- Library call `dbus_message_iter_open_container` on the append iterator of
`reply`; `FALSE` when memory is short. -/
def dbus_message_iter_open_container (reply : MsgObj) (w : World) : Bool × World :=
  let ok := w.next_ok
  (ok,
   { w with calls := w.calls + 1,
            trace := w.trace ++ (if ok then [] else [Event.appendFailed reply.id]) })

/-- Library call `dbus_message_iter_append_basic`; `FALSE` when memory is short. -/
def dbus_message_iter_append_basic (reply : MsgObj) (w : World) : Bool × World :=
  let ok := w.next_ok
  (ok,
   { w with calls := w.calls + 1,
            trace := w.trace ++ (if ok then [] else [Event.appendFailed reply.id]) })

/-- Library call `dbus_message_iter_close_container`; `FALSE` when memory is
short. -/
def dbus_message_iter_close_container (reply : MsgObj) (w : World) : Bool × World :=
  let ok := w.next_ok
  (ok,
   { w with calls := w.calls + 1,
            trace := w.trace ++ (if ok then [] else [Event.appendFailed reply.id]) })

/-- Library call `dbus_connection_send(conn, reply, NULL)`: queues the message
on the connection, or returns `FALSE` when memory is short. -/
def dbus_connection_send (reply : MsgObj) (w : World) : Bool × World :=
  let ok := w.next_ok
  (ok,
   { w with calls := w.calls + 1,
            trace := w.trace ++ [if ok then Event.sent reply.id reply.msg
                                 else Event.sendFailed reply.id] })

/-- Library call `dbus_message_unref(reply)`. -/
def dbus_message_unref (reply : MsgObj) (w : World) : World :=
  { w with trace := w.trace ++ [Event.unref reply.id] }

/-- GLib call `g_main_loop_quit(mainloop)`. -/
def g_main_loop_quit (w : World) : World :=
  { w with trace := w.trace ++ [Event.quit] }

/-! ## The handlers -/

open DBusHandlerResult in
/-- Source function `server_get_properties_handler`. -/
def server_get_properties_handler (property : String) (reply : MsgObj) (w : World) :
    DBusHandlerResult × World :=
  if property = "Version" then
    let r := dbus_message_append_args reply [Arg.string version] w
    let s := dbus_connection_send r.2.1 r.2.2
    if !s.1 then (NEED_MEMORY, s.2) else (HANDLED, s.2)
  else
    /- Unknown property -/
    (NOT_YET_HANDLED, w)

open DBusHandlerResult in
/-- Source function `server_get_all_properties_handler`.  The eight iterator
calls build the one-entry dictionary; the entry is in the message when all of
them succeeded.  None of their results is checked by the code. -/
def server_get_all_properties_handler (reply : MsgObj) (w : World) :
    DBusHandlerResult × World :=
  let result := NEED_MEMORY
  let property := "Version"
  /- dbus_message_iter_init_append(reply, &iter) cannot fail -/
  let c1 := dbus_message_iter_open_container reply w      -- (&iter, ARRAY, "{sv}", &array)
  /- Append all properties name/value pairs -/
  let c2 := dbus_message_iter_open_container reply c1.2   -- (&array, DICT_ENTRY, NULL, &dict)
  let c3 := dbus_message_iter_append_basic reply c2.2     -- (&dict, STRING, &property)
  let c4 := dbus_message_iter_open_container reply c3.2   -- (&dict, VARIANT, "s", &variant)
  let c5 := dbus_message_iter_append_basic reply c4.2     -- (&variant, STRING, &version)
  let c6 := dbus_message_iter_close_container reply c5.2  -- (&dict, &variant)
  let c7 := dbus_message_iter_close_container reply c6.2  -- (&array, &dict)
  let c8 := dbus_message_iter_close_container reply c7.2  -- (&iter, &array)
  let built := c1.1 && c2.1 && c3.1 && c4.1 && c5.1 && c6.1 && c7.1 && c8.1
  let reply : MsgObj :=
    { reply with msg := { reply.msg with
        args := if built then reply.msg.args ++ [Arg.dict [(property, version)]]
                else reply.msg.args } }
  let s := dbus_connection_send reply c8.2
  if s.1 then (HANDLED, s.2) else (result, s.2)

open DBusHandlerResult in
/-- The tail of `server_message_handler` from the label `fail:` on. -/
def server_message_handler_fail (message : DBusMessage) (reply : Option MsgObj)
    (err : Option DBusError) (quit : Bool) (w : World) : DBusHandlerResult × World :=
  let rw : Option MsgObj × World :=
    match err with
    | some e =>
      let w1 := match reply with
        | some r => dbus_message_unref r w
        | none => w
      dbus_message_new_error message e.name e.message w1
    | none => (reply, w)
  match rw.1 with
  | none => (NEED_MEMORY, rw.2)
  | some r =>
    /- Send the reply which might be an error one too. -/
    let s := dbus_connection_send r rw.2
    let result := if !s.1 then NEED_MEMORY else HANDLED
    let w2 := dbus_message_unref r s.2
    let w3 := if quit then g_main_loop_quit w2 else w2
    (result, w3)

open DBusHandlerResult in
/-- Source function `server_message_handler`.  The connection is the one the
world records; the `data` pointer is unused. -/
def server_message_handler (message : DBusMessage) (w : World) : DBusHandlerResult × World :=
  if dbus_message_is_method_call message DBUS_INTERFACE_INTROSPECTABLE "Introspect" then
    let c := dbus_message_new_method_return message w
    match c.1 with
    | none => server_message_handler_fail message none none false c.2
    | some reply =>
      let a := dbus_message_append_args reply [Arg.string server_introspection_xml] c.2
      server_message_handler_fail message (some a.2.1) none false a.2.2
  else if dbus_message_is_method_call message DBUS_INTERFACE_PROPERTIES "Get" then
    match dbus_message_get_args_ss message with
    | Except.error e => server_message_handler_fail message none (some e) false w
    | Except.ok (_interface, property) =>
      let c := dbus_message_new_method_return message w
      match c.1 with
      | none => server_message_handler_fail message none none false c.2
      | some reply =>
        let h := server_get_properties_handler property reply c.2
        (h.1, dbus_message_unref reply h.2)
  else if dbus_message_is_method_call message DBUS_INTERFACE_PROPERTIES "GetAll" then
    let c := dbus_message_new_method_return message w
    match c.1 with
    | none => server_message_handler_fail message none none false c.2
    | some reply =>
      let h := server_get_all_properties_handler reply c.2
      (h.1, dbus_message_unref reply h.2)
  else if dbus_message_is_method_call message "org.example.TestInterface" "Ping" then
    let pong := "Pong"
    let c := dbus_message_new_method_return message w
    match c.1 with
    | none => server_message_handler_fail message none none false c.2
    | some reply =>
      let a := dbus_message_append_args reply [Arg.string pong] c.2
      server_message_handler_fail message (some a.2.1) none false a.2.2
  else if dbus_message_is_method_call message "org.example.TestInterface" "Echo" then
    match dbus_message_get_args_s message with
    | Except.error e => server_message_handler_fail message none (some e) false w
    | Except.ok msg =>
      let c := dbus_message_new_method_return message w
      match c.1 with
      | none => server_message_handler_fail message none none false c.2
      | some reply =>
        let a := dbus_message_append_args reply [Arg.string msg] c.2
        server_message_handler_fail message (some a.2.1) none false a.2.2
  else if dbus_message_is_method_call message "org.example.TestInterface" "EmitSignal" then
    let c := dbus_message_new_signal "/org/example/TestObject" "org.example.TestInterface"
      "OnEmitSignal" w
    match c.1 with
    | none => server_message_handler_fail message none none false c.2
    | some reply =>
      let s := dbus_connection_send reply c.2
      if !s.1 then (NEED_MEMORY, s.2)
      else
        /- Send a METHOD_RETURN reply. -/
        let c2 := dbus_message_new_method_return message s.2
        server_message_handler_fail message c2.1 none false c2.2
  else if dbus_message_is_method_call message "org.example.TestInterface" "Quit" then
    let c := dbus_message_new_method_return message w
    server_message_handler_fail message c.1 none true c.2
  else
    (NOT_YET_HANDLED, w)

/-! ## Running the handler on one inbound message -/

/-- The world in which a message is delivered to the handler. -/
def World.init (oracle : Nat → Bool) : World :=
  { oracle := oracle, calls := 0, next_id := 0, trace := [] }

/-- The handler's result and trace for one inbound message. -/
def run (message : DBusMessage) (oracle : Nat → Bool) : DBusHandlerResult × List Event :=
  let r := server_message_handler message (World.init oracle)
  (r.1, r.2.trace)

/-- The messages queued on the connection, in order. -/
def sentMessages (t : List Event) : List DBusMessage :=
  t.filterMap fun e => match e with
    | Event.sent _ m => some m
    | _ => none

/-- An inbound method call with the given interface, member and arguments. -/
def method_call (iface member : String) (args : List Arg) : DBusMessage :=
  { type := MessageType.METHOD_CALL, path := some "/org/example/TestObject",
    interface := some iface, member := some member, error_name := none,
    reply_serial := none, destination := some "org.example.TestServer",
    sender := some ":1.42", serial := 7, args := args }

/-- An inbound method call that carries no interface field (D-Bus lets the
caller leave it out). -/
def method_call_without_interface (member : String) (args : List Arg) : DBusMessage :=
  { type := MessageType.METHOD_CALL, path := some "/org/example/TestObject",
    interface := none, member := some member, error_name := none,
    reply_serial := none, destination := some "org.example.TestServer",
    sender := some ":1.42", serial := 7, args := args }

/-- The oracle under which no library call fails. -/
def all_ok : Nat → Bool := fun _ => true


/-- The replies among the queued messages: method returns and errors. -/
def replies (t : List Event) : List DBusMessage :=
  (sentMessages t).filter fun r =>
    r.type == MessageType.METHOD_RETURN || r.type == MessageType.ERROR

/-- Creating a message object failed somewhere in the trace. -/
def creationFailed (t : List Event) : Bool :=
  t.any fun e => match e with
    | Event.createFailed => true
    | _ => false

/-- Queueing a message on the connection failed somewhere in the trace. -/
def sendFailed (t : List Event) : Bool :=
  t.any fun e => match e with
    | Event.sendFailed _ => true
    | _ => false

/-- Appending to a message failed somewhere in the trace. -/
def appendFailed (t : List Event) : Bool :=
  t.any fun e => match e with
    | Event.appendFailed _ => true
    | _ => false

/-- The ids of the message objects created, in order. -/
def createdIds (t : List Event) : List Nat :=
  t.filterMap fun e => match e with
    | Event.created i => some i
    | _ => none

/-- The ids of the message objects released, in order, one entry per
`dbus_message_unref`. -/
def releasedIds (t : List Event) : List Nat :=
  t.filterMap fun e => match e with
    | Event.unref i => some i
    | _ => none

/-- The main loop was asked to quit. -/
def quitRequested (t : List Event) : Bool :=
  t.any fun e => match e with
    | Event.quit => true
    | _ => false

/-- The oracle under which exactly the library calls numbered in `ks` fail
(the calls are numbered from 0 in the order the handler makes them). -/
def failing (ks : List Nat) : Nat → Bool := fun n => !ks.contains n

/-- The seven routed (interface, member) pairs, in dispatch order. -/
def routes : List (String × String) :=
  [(DBUS_INTERFACE_INTROSPECTABLE, "Introspect"),
   (DBUS_INTERFACE_PROPERTIES, "Get"),
   (DBUS_INTERFACE_PROPERTIES, "GetAll"),
   ("org.example.TestInterface", "Ping"),
   ("org.example.TestInterface", "Echo"),
   ("org.example.TestInterface", "EmitSignal"),
   ("org.example.TestInterface", "Quit")]

/-- The message is a method call of `iface.member`: a method call whose member
is `member` and whose interface is `iface`.  A method call that carries no
interface field counts as a call of `iface.member` too: D-Bus lets the caller
leave the field out and `dbus_message_is_method_call` then goes by the member
alone. -/
def IsCall (m : DBusMessage) (iface member : String) : Prop :=
  m.type = MessageType.METHOD_CALL ∧ m.member = some member ∧
  (m.interface = some iface ∨ m.interface = none)

instance (m : DBusMessage) (iface member : String) : Decidable (IsCall m iface member) := by
  unfold IsCall
  infer_instance

/-! ## The handler on each route, for every outcome of the library calls -/

open DBusHandlerResult

/-- Route `Introspectable.Introspect`: create the reply, append the XML, send, release. -/
theorem run_introspect (m : DBusMessage) (o : Nat → Bool)
    (h : IsCall m DBUS_INTERFACE_INTROSPECTABLE "Introspect") :
    run m o =
      if o 0 = true then
        (if o 2 = true then HANDLED else NEED_MEMORY,
         Event.created 0 :: ((if o 1 = true then [] else [Event.appendFailed 0]) ++
           [if o 2 = true then
              Event.sent 0 (method_return m (if o 1 = true then [Arg.string server_introspection_xml] else []))
            else Event.sendFailed 0,
            Event.unref 0]))
      else (NEED_MEMORY, [Event.createFailed]) := by
  obtain ⟨ht, hm, hi | hi⟩ := h <;>
  cases h0 : o 0 <;> cases h1 : o 1 <;> cases h2 : o 2 <;>
  simp [run, server_message_handler, dbus_message_is_method_call, ht, hi, hm,
    DBUS_INTERFACE_INTROSPECTABLE, DBUS_INTERFACE_PROPERTIES,
    dbus_message_new_method_return, dbus_message_new_error, dbus_message_new_signal,
    World.next_ok, World.init, dbus_message_append_args, server_message_handler_fail,
    dbus_connection_send, dbus_message_unref, g_main_loop_quit, method_return, h0, h1, h2]

/-- Route `TestInterface.Ping`: create the reply, append "Pong", send, release. -/
theorem run_ping (m : DBusMessage) (o : Nat → Bool)
    (h : IsCall m "org.example.TestInterface" "Ping") :
    run m o =
      if o 0 = true then
        (if o 2 = true then HANDLED else NEED_MEMORY,
         Event.created 0 :: ((if o 1 = true then [] else [Event.appendFailed 0]) ++
           [if o 2 = true then
              Event.sent 0 (method_return m (if o 1 = true then [Arg.string "Pong"] else []))
            else Event.sendFailed 0,
            Event.unref 0]))
      else (NEED_MEMORY, [Event.createFailed]) := by
  obtain ⟨ht, hm, hi | hi⟩ := h <;>
  cases h0 : o 0 <;> cases h1 : o 1 <;> cases h2 : o 2 <;>
  simp [run, server_message_handler, dbus_message_is_method_call, ht, hi, hm,
    DBUS_INTERFACE_INTROSPECTABLE, DBUS_INTERFACE_PROPERTIES,
    dbus_message_new_method_return, dbus_message_new_error, dbus_message_new_signal,
    World.next_ok, World.init, dbus_message_append_args, server_message_handler_fail,
    dbus_connection_send, dbus_message_unref, g_main_loop_quit, method_return, h0, h1, h2]

/-- Route `TestInterface.Echo` when the argument decodes to `x`. -/
theorem run_echo (m : DBusMessage) (o : Nat → Bool) (x : String)
    (hdec : dbus_message_get_args_s m = Except.ok x)
    (h : IsCall m "org.example.TestInterface" "Echo") :
    run m o =
      if o 0 = true then
        (if o 2 = true then HANDLED else NEED_MEMORY,
         Event.created 0 :: ((if o 1 = true then [] else [Event.appendFailed 0]) ++
           [if o 2 = true then
              Event.sent 0 (method_return m (if o 1 = true then [Arg.string x] else []))
            else Event.sendFailed 0,
            Event.unref 0]))
      else (NEED_MEMORY, [Event.createFailed]) := by
  obtain ⟨ht, hm, hi | hi⟩ := h <;>
  cases h0 : o 0 <;> cases h1 : o 1 <;> cases h2 : o 2 <;>
  simp [run, server_message_handler, dbus_message_is_method_call, ht, hi, hm,
    DBUS_INTERFACE_INTROSPECTABLE, DBUS_INTERFACE_PROPERTIES,
    dbus_message_new_method_return, dbus_message_new_error, dbus_message_new_signal,
    World.next_ok, World.init, dbus_message_append_args, server_message_handler_fail,
    dbus_connection_send, dbus_message_unref, g_main_loop_quit, method_return, h0, h1, h2, hdec]

/-- Route `TestInterface.Echo` when decoding fails with `e`: an error reply is
created from `e`, sent and released. -/
theorem run_echo_decode_error (m : DBusMessage) (o : Nat → Bool) (e : DBusError)
    (h : IsCall m "org.example.TestInterface" "Echo") (hdec : dbus_message_get_args_s m = Except.error e) :
    run m o =
      if o 0 = true then
        (if o 1 = true then HANDLED else NEED_MEMORY,
         [Event.created 0,
          if o 1 = true then Event.sent 0 (error_reply m e.name e.message)
          else Event.sendFailed 0,
          Event.unref 0])
      else (NEED_MEMORY, [Event.createFailed]) := by
  obtain ⟨ht, hm, hi | hi⟩ := h <;>
  cases h0 : o 0 <;> cases h1 : o 1 <;>
  simp [run, server_message_handler, dbus_message_is_method_call, ht, hi, hm,
    DBUS_INTERFACE_INTROSPECTABLE, DBUS_INTERFACE_PROPERTIES,
    dbus_message_new_method_return, dbus_message_new_error, dbus_message_new_signal,
    World.next_ok, World.init, dbus_message_append_args, server_message_handler_fail,
    dbus_connection_send, dbus_message_unref, g_main_loop_quit, method_return, h0, h1, hdec]

/-- Route `Properties.Get` when decoding fails with `e`. -/
theorem run_get_decode_error (m : DBusMessage) (o : Nat → Bool) (e : DBusError)
    (h : IsCall m DBUS_INTERFACE_PROPERTIES "Get") (hdec : dbus_message_get_args_ss m = Except.error e) :
    run m o =
      if o 0 = true then
        (if o 1 = true then HANDLED else NEED_MEMORY,
         [Event.created 0,
          if o 1 = true then Event.sent 0 (error_reply m e.name e.message)
          else Event.sendFailed 0,
          Event.unref 0])
      else (NEED_MEMORY, [Event.createFailed]) := by
  obtain ⟨ht, hm, hi | hi⟩ := h <;>
  cases h0 : o 0 <;> cases h1 : o 1 <;>
  simp [run, server_message_handler, dbus_message_is_method_call, ht, hi, hm,
    DBUS_INTERFACE_INTROSPECTABLE, DBUS_INTERFACE_PROPERTIES,
    dbus_message_new_method_return, dbus_message_new_error, dbus_message_new_signal,
    World.next_ok, World.init, dbus_message_append_args, server_message_handler_fail,
    dbus_connection_send, dbus_message_unref, g_main_loop_quit, method_return, h0, h1, hdec]

/-- Route `Properties.Get` when the arguments decode to `(i, p)`: the reply is
created first; an unknown property releases it unsent. -/
theorem run_get (m : DBusMessage) (o : Nat → Bool) (i p : String)
    (h : IsCall m DBUS_INTERFACE_PROPERTIES "Get")
    (hdec : dbus_message_get_args_ss m = Except.ok (i, p)) :
    run m o =
      if o 0 = true then
        if p = "Version" then
          (if o 2 = true then HANDLED else NEED_MEMORY,
           Event.created 0 :: ((if o 1 = true then [] else [Event.appendFailed 0]) ++
             [if o 2 = true then
                Event.sent 0 (method_return m (if o 1 = true then [Arg.string version] else []))
              else Event.sendFailed 0,
              Event.unref 0]))
        else (NOT_YET_HANDLED, [Event.created 0, Event.unref 0])
      else (NEED_MEMORY, [Event.createFailed]) := by
  obtain ⟨ht, hm, hi | hi⟩ := h <;>
  cases h0 : o 0 <;> cases h1 : o 1 <;> cases h2 : o 2 <;>
  by_cases hp : p = "Version" <;>
  simp [run, server_message_handler, dbus_message_is_method_call, ht, hi, hm,
    DBUS_INTERFACE_INTROSPECTABLE, DBUS_INTERFACE_PROPERTIES,
    dbus_message_new_method_return, dbus_message_new_error, dbus_message_new_signal,
    World.next_ok, World.init, dbus_message_append_args, server_message_handler_fail,
    dbus_connection_send, dbus_message_unref, g_main_loop_quit, method_return, h0, h1, h2, hdec,
    server_get_properties_handler, hp]

/-- Route `Properties.GetAll`: the reply is created, the eight iterator calls
run unchecked, the reply is sent and released. -/
theorem run_get_all (m : DBusMessage) (o : Nat → Bool)
    (h : IsCall m DBUS_INTERFACE_PROPERTIES "GetAll") :
    run m o =
      if o 0 = true then
        (if o 9 = true then HANDLED else NEED_MEMORY,
         Event.created 0 ::
           ((if o 1 = true then [] else [Event.appendFailed 0]) ++
            ((if o 2 = true then [] else [Event.appendFailed 0]) ++
             ((if o 3 = true then [] else [Event.appendFailed 0]) ++
              ((if o 4 = true then [] else [Event.appendFailed 0]) ++
               ((if o 5 = true then [] else [Event.appendFailed 0]) ++
                ((if o 6 = true then [] else [Event.appendFailed 0]) ++
                 ((if o 7 = true then [] else [Event.appendFailed 0]) ++
                  ((if o 8 = true then [] else [Event.appendFailed 0]) ++
                   [if o 9 = true then
                      Event.sent 0 (method_return m
                        (if (o 1 && o 2 && o 3 && o 4 && o 5 && o 6 && o 7 && o 8) = true
                         then [Arg.dict [("Version", version)]] else []))
                    else Event.sendFailed 0,
                    Event.unref 0])))))))))
      else (NEED_MEMORY, [Event.createFailed]) := by
  obtain ⟨ht, hm, hi | hi⟩ := h <;>
  cases h0 : o 0 <;> cases h9 : o 9 <;>
  simp [run, server_message_handler, dbus_message_is_method_call, ht, hi, hm,
    DBUS_INTERFACE_INTROSPECTABLE, DBUS_INTERFACE_PROPERTIES,
    dbus_message_new_method_return, dbus_message_new_error, dbus_message_new_signal,
    World.next_ok, World.init, dbus_message_append_args, server_message_handler_fail,
    dbus_connection_send, dbus_message_unref, g_main_loop_quit, method_return, h0, h9,
    server_get_all_properties_handler, dbus_message_iter_open_container,
    dbus_message_iter_append_basic, dbus_message_iter_close_container]

/-- Route `TestInterface.EmitSignal`: the signal is created and sent, then the
method return is created, sent and released. -/
theorem run_emit_signal (m : DBusMessage) (o : Nat → Bool)
    (h : IsCall m "org.example.TestInterface" "EmitSignal") :
    run m o =
      if o 0 = true then
        if o 1 = true then
          if o 2 = true then
            (if o 3 = true then HANDLED else NEED_MEMORY,
             [Event.created 0,
              Event.sent 0 (signal_message "/org/example/TestObject"
                "org.example.TestInterface" "OnEmitSignal"),
              Event.created 1,
              if o 3 = true then Event.sent 1 (method_return m []) else Event.sendFailed 1,
              Event.unref 1])
          else
            (NEED_MEMORY,
             [Event.created 0,
              Event.sent 0 (signal_message "/org/example/TestObject"
                "org.example.TestInterface" "OnEmitSignal"),
              Event.createFailed])
        else (NEED_MEMORY, [Event.created 0, Event.sendFailed 0])
      else (NEED_MEMORY, [Event.createFailed]) := by
  obtain ⟨ht, hm, hi | hi⟩ := h <;>
  cases h0 : o 0 <;> cases h1 : o 1 <;> cases h2 : o 2 <;> cases h3 : o 3 <;>
  simp [run, server_message_handler, dbus_message_is_method_call, ht, hi, hm,
    DBUS_INTERFACE_INTROSPECTABLE, DBUS_INTERFACE_PROPERTIES,
    dbus_message_new_method_return, dbus_message_new_error, dbus_message_new_signal,
    World.next_ok, World.init, dbus_message_append_args, server_message_handler_fail,
    dbus_connection_send, dbus_message_unref, g_main_loop_quit, method_return, h0, h1, h2, h3]

/-- Route `TestInterface.Quit`: the reply is created, sent and released, then
the main loop is asked to quit. -/
theorem run_quit (m : DBusMessage) (o : Nat → Bool)
    (h : IsCall m "org.example.TestInterface" "Quit") :
    run m o =
      if o 0 = true then
        (if o 1 = true then HANDLED else NEED_MEMORY,
         [Event.created 0,
          if o 1 = true then Event.sent 0 (method_return m []) else Event.sendFailed 0,
          Event.unref 0,
          Event.quit])
      else (NEED_MEMORY, [Event.createFailed]) := by
  obtain ⟨ht, hm, hi | hi⟩ := h <;>
  cases h0 : o 0 <;> cases h1 : o 1 <;>
  simp [run, server_message_handler, dbus_message_is_method_call, ht, hi, hm,
    DBUS_INTERFACE_INTROSPECTABLE, DBUS_INTERFACE_PROPERTIES,
    dbus_message_new_method_return, dbus_message_new_error, dbus_message_new_signal,
    World.next_ok, World.init, dbus_message_append_args, server_message_handler_fail,
    dbus_connection_send, dbus_message_unref, g_main_loop_quit, method_return, h0, h1]

/-! ## Auxiliary facts -/

/-- The library predicate agrees with `IsCall`. -/
theorem is_method_call_iff (m : DBusMessage) (iface member : String) :
    dbus_message_is_method_call m iface member = true ↔ IsCall m iface member := by
  simp [dbus_message_is_method_call, IsCall, and_assoc, or_comm]

/-- A one-string decoding error is always `InvalidArgs`. -/
theorem get_args_s_error_name (m : DBusMessage) (e : DBusError)
    (h : dbus_message_get_args_s m = Except.error e) : e.name = DBUS_ERROR_INVALID_ARGS := by
  unfold dbus_message_get_args_s at h
  split at h
  · cases h
  · cases h
    rfl

/-- A two-string decoding error is always `InvalidArgs`. -/
theorem get_args_ss_error_name (m : DBusMessage) (e : DBusError)
    (h : dbus_message_get_args_ss m = Except.error e) : e.name = DBUS_ERROR_INVALID_ARGS := by
  unfold dbus_message_get_args_ss at h
  split at h
  · split at h
    · cases h
    · cases h
      rfl
    · cases h
      rfl
  · cases h
    rfl

theorem sentMessages_skip (c : Prop) [Decidable c] (i : Nat) (t : List Event) :
    sentMessages ((if c then [] else [Event.appendFailed i]) ++ t) = sentMessages t := by
  split <;> simp [sentMessages]

theorem createdIds_skip (c : Prop) [Decidable c] (i : Nat) (t : List Event) :
    createdIds ((if c then [] else [Event.appendFailed i]) ++ t) = createdIds t := by
  split <;> simp [createdIds]

theorem releasedIds_skip (c : Prop) [Decidable c] (i : Nat) (t : List Event) :
    releasedIds ((if c then [] else [Event.appendFailed i]) ++ t) = releasedIds t := by
  split <;> simp [releasedIds]

theorem createdIds_created (i : Nat) (t : List Event) :
    createdIds (Event.created i :: t) = i :: createdIds t := by
  simp [createdIds]

theorem releasedIds_created (i : Nat) (t : List Event) :
    releasedIds (Event.created i :: t) = releasedIds t := by
  simp [releasedIds]

theorem sentMessages_created (i : Nat) (t : List Event) :
    sentMessages (Event.created i :: t) = sentMessages t := by
  simp [sentMessages]

theorem any_skip (c : Prop) [Decidable c] (x : Event) (f : Event → Bool) (t : List Event) :
    ((if c then [] else [x]) ++ t).any f = ((!decide c && f x) || t.any f) := by
  split <;> simp_all

/-! ## Every routed call and its reply -/

/-- C1, as stated, fails: a `Properties.Get` call that asks for the unknown
property "Color" is a routed call, every library call succeeds, and yet the
handler returns `NOT_YET_HANDLED` and queues no reply. -/
theorem get_unknown_property_left_unanswered :
    IsCall (method_call DBUS_INTERFACE_PROPERTIES "Get"
      [Arg.string "org.example.TestInterface", Arg.string "Color"])
      DBUS_INTERFACE_PROPERTIES "Get" ∧
    (run (method_call DBUS_INTERFACE_PROPERTIES "Get"
      [Arg.string "org.example.TestInterface", Arg.string "Color"]) all_ok).1
      = NOT_YET_HANDLED ∧
    replies (run (method_call DBUS_INTERFACE_PROPERTIES "Get"
      [Arg.string "org.example.TestInterface", Arg.string "Color"]) all_ok).2 = [] := by
  decide

/-- C1, amended: for every method call of one of the seven routed pairs and
every payload, when message creation and sending succeed (whatever the outcome
of the unchecked appends), and unless the call is a `Properties.Get` whose
payload decodes to a property other than "Version", the handler returns
`HANDLED` and queues exactly one reply, a method return or an error, that
answers the call. -/
theorem routed_call_gets_exactly_one_reply (m : DBusMessage) (o : Nat → Bool)
    (hroute : ∃ p ∈ routes, IsCall m p.1 p.2)
    (hcreate : creationFailed (run m o).2 = false)
    (hsend : sendFailed (run m o).2 = false)
    (hprop : ∀ i p, IsCall m DBUS_INTERFACE_PROPERTIES "Get" →
      dbus_message_get_args_ss m = Except.ok (i, p) → p = "Version") :
    (run m o).1 = HANDLED ∧
    ∃ r, replies (run m o).2 = [r] ∧
      (r.type = MessageType.METHOD_RETURN ∨ r.type = MessageType.ERROR) ∧
      r.reply_serial = some m.serial ∧ r.destination = m.sender := by
  simp only [routes, List.mem_cons, List.mem_singleton, List.not_mem_nil, or_false,
    exists_eq_or_imp, exists_eq_left] at hroute
  rcases hroute with h | h | h | h | h | h | h
  · rw [run_introspect m o h] at hcreate hsend ⊢
    revert hcreate hsend
    cases o 0 <;> cases o 1 <;> cases o 2 <;>
      simp [creationFailed, sendFailed, replies, sentMessages, method_return]
  · cases hdec : dbus_message_get_args_ss m with
    | error e =>
      rw [run_get_decode_error m o e h hdec] at hcreate hsend ⊢
      revert hcreate hsend
      cases o 0 <;> cases o 1 <;>
        simp [creationFailed, sendFailed, replies, sentMessages, error_reply]
    | ok ip =>
      obtain ⟨i, p⟩ := ip
      have hp : p = "Version" := hprop i p h hdec
      subst hp
      rw [run_get m o i "Version" h hdec] at hcreate hsend ⊢
      revert hcreate hsend
      cases o 0 <;> cases o 1 <;> cases o 2 <;>
        simp [creationFailed, sendFailed, replies, sentMessages, method_return]
  · rw [run_get_all m o h] at hcreate hsend ⊢
    revert hcreate hsend
    cases o 0 <;> cases o 9 <;>
      simp [creationFailed, sendFailed, replies, sentMessages_created, sentMessages_skip,
        any_skip, method_return]
    simp [sentMessages]
  · rw [run_ping m o h] at hcreate hsend ⊢
    revert hcreate hsend
    cases o 0 <;> cases o 1 <;> cases o 2 <;>
      simp [creationFailed, sendFailed, replies, sentMessages, method_return]
  · cases hdec : dbus_message_get_args_s m with
    | error e =>
      rw [run_echo_decode_error m o e h hdec] at hcreate hsend ⊢
      revert hcreate hsend
      cases o 0 <;> cases o 1 <;>
        simp [creationFailed, sendFailed, replies, sentMessages, error_reply]
    | ok x =>
      rw [run_echo m o x hdec h] at hcreate hsend ⊢
      revert hcreate hsend
      cases o 0 <;> cases o 1 <;> cases o 2 <;>
        simp [creationFailed, sendFailed, replies, sentMessages, method_return]
  · rw [run_emit_signal m o h] at hcreate hsend ⊢
    revert hcreate hsend
    cases o 0 <;> cases o 1 <;> cases o 2 <;> cases o 3 <;>
      simp [creationFailed, sendFailed, replies, sentMessages, method_return, signal_message]
  · rw [run_quit m o h] at hcreate hsend ⊢
    revert hcreate hsend
    cases o 0 <;> cases o 1 <;>
      simp [creationFailed, sendFailed, replies, sentMessages, method_return]

/-- C1, amended, at a `Ping` call whose reply is created and sent while the
append in between (library call 1) fails. -/
theorem routed_call_gets_exactly_one_reply_witness :
    appendFailed (run (method_call "org.example.TestInterface" "Ping" []) (failing [1])).2
      = true ∧
    (run (method_call "org.example.TestInterface" "Ping" []) (failing [1])).1 = HANDLED :=
  ⟨by decide,
   (routed_call_gets_exactly_one_reply (method_call "org.example.TestInterface" "Ping" [])
    (failing [1]) ⟨("org.example.TestInterface", "Ping"), by decide, by decide⟩
    (by decide) (by decide) (fun _ _ h _ => absurd h (by decide))).1⟩

/-! ## Echo -/

/-- C3: for every `TestInterface.EmitSignal` call, when no library call fails
the handler queues exactly two messages, first the `OnEmitSignal` signal on
"/org/example/TestObject" and "org.example.TestInterface" with no payload,
then the empty method return for the call; and for every outcome of the
library calls the queued sequence is empty, the signal alone, or the signal
followed by the method return, so the method return never goes out before or
without the signal. -/
theorem emit_signal_sends_signal_then_reply (m : DBusMessage) (o : Nat → Bool)
    (hcall : IsCall m "org.example.TestInterface" "EmitSignal") :
    ((∀ n, o n = true) →
      (run m o).1 = HANDLED ∧
      sentMessages (run m o).2 =
        [signal_message "/org/example/TestObject" "org.example.TestInterface" "OnEmitSignal",
         method_return m []]) ∧
    (sentMessages (run m o).2 = [] ∨
     sentMessages (run m o).2 =
        [signal_message "/org/example/TestObject" "org.example.TestInterface"
          "OnEmitSignal"] ∨
     sentMessages (run m o).2 =
        [signal_message "/org/example/TestObject" "org.example.TestInterface" "OnEmitSignal",
         method_return m []]) ∧
    (signal_message "/org/example/TestObject" "org.example.TestInterface" "OnEmitSignal").args
      = [] := by
  rw [run_emit_signal m o hcall]
  refine ⟨fun hok => by simp [hok, sentMessages], ?_, rfl⟩
  cases o 0 <;> cases o 1 <;> cases o 2 <;> cases o 3 <;> simp [sentMessages]

/-- C3 at an `EmitSignal` call with no library failure. -/
theorem emit_signal_sends_signal_then_reply_witness :
    sentMessages (run (method_call "org.example.TestInterface" "EmitSignal" []) all_ok).2 =
      [signal_message "/org/example/TestObject" "org.example.TestInterface" "OnEmitSignal",
       method_return (method_call "org.example.TestInterface" "EmitSignal" []) []] :=
  ((emit_signal_sends_signal_then_reply (method_call "org.example.TestInterface" "EmitSignal" [])
    all_ok (by decide)).1 (fun _ => rfl)).2

/-! ## Quit -/

/-- C4 fails on the code: for a `TestInterface.Quit` call whose reply is created
(library call 0 succeeds) but cannot be queued (`dbus_connection_send`, library
call 1, fails), the handler returns `NEED_MEMORY`, no message was queued, and
the main loop is asked to quit all the same. -/
theorem quit_requested_though_reply_not_sent :
    run (method_call "org.example.TestInterface" "Quit" []) (failing [1]) =
      (NEED_MEMORY, [Event.created 0, Event.sendFailed 0, Event.unref 0, Event.quit]) ∧
    sentMessages (run (method_call "org.example.TestInterface" "Quit" []) (failing [1])).2
      = [] ∧
    quitRequested (run (method_call "org.example.TestInterface" "Quit" []) (failing [1])).2
      = true := by
  decide

/-- On the `Quit` route, for every outcome of the library calls: the main loop
is asked to quit exactly when the reply object was created, whether or not it
could be sent. -/
theorem quit_requested_iff_reply_created (m : DBusMessage) (o : Nat → Bool)
    (h : IsCall m "org.example.TestInterface" "Quit") :
    quitRequested (run m o).2 = !creationFailed (run m o).2 := by
  rw [run_quit m o h]
  cases o 0 <;> cases o 1 <;> simp [quitRequested, creationFailed]

/-! ## The Version property -/

/-- C5: for every `Properties.Get` call whose payload decodes to `(i, "Version")`,
whatever `i`, and every `Properties.GetAll` call: in every execution, a string
carried by a `Get` reply and a mapping carried by a `GetAll` reply agree (the
mapping is the one entry "Version" with that string, which is "0.1"); and when no
library call fails `Get` queues exactly the method return carrying the version
string and `GetAll` exactly the method return carrying the one-entry mapping
from "Version" to it. -/
theorem version_same_through_get_and_get_all (g a : DBusMessage) (i : String)
    (og oa : Nat → Bool)
    (hg : IsCall g DBUS_INTERFACE_PROPERTIES "Get")
    (hdec : dbus_message_get_args_ss g = Except.ok (i, "Version"))
    (ha : IsCall a DBUS_INTERFACE_PROPERTIES "GetAll") :
    (∀ rg ∈ sentMessages (run g og).2, ∀ ra ∈ sentMessages (run a oa).2,
      ∀ s entries, rg.args = [Arg.string s] → ra.args = [Arg.dict entries] →
        entries = [("Version", s)] ∧ s = "0.1") ∧
    ((∀ n, og n = true) →
      sentMessages (run g og).2 = [method_return g [Arg.string version]]) ∧
    ((∀ n, oa n = true) →
      sentMessages (run a oa).2 = [method_return a [Arg.dict [("Version", version)]]]) ∧
    version = "0.1" := by
  rw [run_get g og i "Version" hg hdec, run_get_all a oa ha]
  refine ⟨?_, fun hok => by simp [hok, sentMessages], fun hok => by simp [hok, sentMessages],
    rfl⟩
  intro rg hrg ra hra s entries hs he
  have hgv : rg.args = [] ∨ rg.args = [Arg.string version] := by
    revert hrg
    cases og 0 <;> cases og 1 <;> cases og 2 <;>
      simp [sentMessages, method_return] <;> intro h <;> simp [h]
  have hav : ra.args = [] ∨ ra.args = [Arg.dict [("Version", version)]] := by
    revert hra
    cases oa 0 <;> cases oa 9 <;>
      simp only [if_true, if_false, Bool.false_eq_true, sentMessages_created,
        sentMessages_skip] <;>
      simp [sentMessages, method_return]
    intro h
    subst h
    split <;> simp
  rcases hgv with hgv | hgv <;> rcases hav with hav | hav <;>
    simp_all [version]

/-- C5 at a `Get` of "Version" and a `GetAll`, with no library failure. -/
theorem version_same_through_get_and_get_all_witness :
    sentMessages (run (method_call DBUS_INTERFACE_PROPERTIES "Get"
      [Arg.string "org.example.TestInterface", Arg.string "Version"]) all_ok).2 =
      [method_return (method_call DBUS_INTERFACE_PROPERTIES "Get"
        [Arg.string "org.example.TestInterface", Arg.string "Version"])
        [Arg.string version]] :=
  (version_same_through_get_and_get_all
    (method_call DBUS_INTERFACE_PROPERTIES "Get"
      [Arg.string "org.example.TestInterface", Arg.string "Version"])
    (method_call DBUS_INTERFACE_PROPERTIES "GetAll" [Arg.string "org.example.TestInterface"])
    "org.example.TestInterface" all_ok all_ok (by decide) rfl (by decide)).2.1 (fun _ => rfl)

/-! ## Unrouted messages -/

/-- C6, as stated, fails: a method call that carries no interface field and has
the member "Quit" has an (interface, member) that is none of the seven routed
pairs, yet the handler replies to it, asks the main loop to quit and returns
`HANDLED`. -/
theorem call_without_interface_is_routed :
    (method_call_without_interface "Quit" []).interface = none ∧
    run (method_call_without_interface "Quit" []) all_ok =
      (HANDLED,
       [Event.created 0,
        Event.sent 0 (method_return (method_call_without_interface "Quit" []) []),
        Event.unref 0,
        Event.quit]) := by
  decide

/-- C6, amended: for every inbound message that is not a method call, or whose
member is none of the seven routed member names, or that carries an interface
field and whose (interface, member) is none of the seven routed pairs, and for
every outcome of the library calls, the handler returns `NOT_YET_HANDLED` and
its trace is empty: no message is created or queued and the main loop is not
asked to quit. -/
theorem unrouted_message_not_yet_handled (m : DBusMessage) (o : Nat → Bool)
    (h : m.type ≠ MessageType.METHOD_CALL ∨
         (∀ p ∈ routes, m.member ≠ some p.2) ∨
         (m.interface ≠ none ∧
           ∀ p ∈ routes, ¬ (m.interface = some p.1 ∧ m.member = some p.2))) :
    run m o = (NOT_YET_HANDLED, []) := by
  have hf : ∀ p ∈ routes, dbus_message_is_method_call m p.1 p.2 = false := by
    intro p hp
    have hn : ¬ IsCall m p.1 p.2 := by
      rintro ⟨ht, hm, hi⟩
      rcases h with h | h | ⟨h1, h2⟩
      · exact h ht
      · exact h p hp hm
      · rcases hi with hi | hi
        · exact h2 p hp ⟨hi, hm⟩
        · exact h1 hi
    rw [← is_method_call_iff] at hn
    simpa using hn
  simp only [routes, List.mem_cons, List.mem_singleton, List.not_mem_nil, or_false,
    forall_eq_or_imp, forall_eq] at hf
  obtain ⟨h1, h2, h3, h4, h5, h6, h7⟩ := hf
  simp [run, server_message_handler, h1, h2, h3, h4, h5, h6, h7, World.init]

/-- C6, amended, at a `Ping` call that names a different interface, and at a
signal that carries the routed pair `TestInterface.Quit`. -/
theorem unrouted_message_not_yet_handled_witness :
    run (method_call "org.example.OtherInterface" "Ping" []) all_ok = (NOT_YET_HANDLED, []) ∧
    run (signal_message "/org/example/TestObject" "org.example.TestInterface" "Quit") all_ok
      = (NOT_YET_HANDLED, []) :=
  ⟨unrouted_message_not_yet_handled (method_call "org.example.OtherInterface" "Ping" []) all_ok
    (Or.inr (Or.inr (by decide))),
   unrouted_message_not_yet_handled
    (signal_message "/org/example/TestObject" "org.example.TestInterface" "Quit") all_ok
    (Or.inl (by decide))⟩

/-! ## Decoding failures -/

/-- C7: for every `TestInterface.Echo` call whose payload does not decode as one
string and every `Properties.Get` call whose payload does not decode as two
strings, with `e` the decoder's error, when no library call fails the handler
returns `HANDLED` and queues exactly one message: the error reply answering the
call that carries the name and message of `e`; the name is `InvalidArgs`, and no
method return is queued. -/
theorem decode_failure_gets_error_reply (m : DBusMessage) (o : Nat → Bool) (e : DBusError)
    (h : (IsCall m "org.example.TestInterface" "Echo" ∧
            dbus_message_get_args_s m = Except.error e) ∨
         (IsCall m DBUS_INTERFACE_PROPERTIES "Get" ∧
            dbus_message_get_args_ss m = Except.error e))
    (hok : ∀ n, o n = true) :
    (run m o).1 = HANDLED ∧
    sentMessages (run m o).2 = [error_reply m e.name e.message] ∧
    e.name = DBUS_ERROR_INVALID_ARGS ∧
    (error_reply m e.name e.message).type = MessageType.ERROR := by
  rcases h with ⟨hc, hdec⟩ | ⟨hc, hdec⟩
  · rw [run_echo_decode_error m o e hc hdec]
    exact ⟨by simp [hok], by simp [hok, sentMessages], get_args_s_error_name m e hdec, rfl⟩
  · rw [run_get_decode_error m o e hc hdec]
    exact ⟨by simp [hok], by simp [hok, sentMessages], get_args_ss_error_name m e hdec, rfl⟩

/-- C7 at an `Echo` call whose one argument is an integer. -/
theorem decode_failure_gets_error_reply_witness :
    (run (method_call "org.example.TestInterface" "Echo" [Arg.int32 5]) all_ok).1 = HANDLED ∧
    sentMessages (run (method_call "org.example.TestInterface" "Echo" [Arg.int32 5]) all_ok).2 =
      [error_reply (method_call "org.example.TestInterface" "Echo" [Arg.int32 5])
        DBUS_ERROR_INVALID_ARGS (not_a_string 0 (some (Arg.int32 5))).message] :=
  ⟨(decode_failure_gets_error_reply (method_call "org.example.TestInterface" "Echo" [Arg.int32 5])
      all_ok (not_a_string 0 (some (Arg.int32 5))) (Or.inl ⟨by decide, rfl⟩) (fun _ => rfl)).1,
   (decode_failure_gets_error_reply (method_call "org.example.TestInterface" "Echo" [Arg.int32 5])
      all_ok (not_a_string 0 (some (Arg.int32 5))) (Or.inl ⟨by decide, rfl⟩) (fun _ => rfl)).2.1⟩

/-! ## Unknown properties -/

/-- C8, as stated, fails: for a `Properties.Get` call that asks for the unknown
property "Color", when creating the reply fails (library call 0) the handler
returns `NEED_MEMORY`, not `NOT_YET_HANDLED`; and for a `Get` of "Version",
when sending the reply fails (library call 2) no method return is queued. -/
theorem get_unknown_property_need_memory :
    dbus_message_get_args_ss (method_call DBUS_INTERFACE_PROPERTIES "Get"
      [Arg.string "org.example.TestInterface", Arg.string "Color"])
      = Except.ok ("org.example.TestInterface", "Color") ∧
    run (method_call DBUS_INTERFACE_PROPERTIES "Get"
      [Arg.string "org.example.TestInterface", Arg.string "Color"]) (failing [0])
      = (NEED_MEMORY, [Event.createFailed]) ∧
    run (method_call DBUS_INTERFACE_PROPERTIES "Get"
      [Arg.string "org.example.TestInterface", Arg.string "Version"]) (failing [2])
      = (NEED_MEMORY, [Event.created 0, Event.sendFailed 0, Event.unref 0]) :=
  ⟨rfl, by decide, by decide⟩

/-- C8, amended: for every `Properties.Get` call whose payload decodes to
`(i, p)`, whatever `i`, when creating the reply message succeeds: if `p` is not
"Version" the handler queues nothing and returns `NOT_YET_HANDLED`; if `p` is
"Version" and appending and sending succeed as well, it queues exactly one
method return, carrying the version string, and returns `HANDLED`. -/
theorem get_property_when_reply_created (m : DBusMessage) (o : Nat → Bool) (i p : String)
    (h : IsCall m DBUS_INTERFACE_PROPERTIES "Get")
    (hdec : dbus_message_get_args_ss m = Except.ok (i, p))
    (hcreate : creationFailed (run m o).2 = false) :
    (p ≠ "Version" →
      (run m o).1 = NOT_YET_HANDLED ∧ sentMessages (run m o).2 = []) ∧
    (p = "Version" → appendFailed (run m o).2 = false → sendFailed (run m o).2 = false →
      (run m o).1 = HANDLED ∧
      sentMessages (run m o).2 = [method_return m [Arg.string version]]) := by
  rw [run_get m o i p h hdec] at hcreate ⊢
  by_cases hp : p = "Version"
  · simp only [hp, if_true, ne_eq, not_true_eq_false, false_implies, true_implies, true_and]
      at hcreate ⊢
    revert hcreate
    cases o 0 <;> cases o 1 <;> cases o 2 <;>
      simp [creationFailed, appendFailed, sendFailed, sentMessages]
  · simp only [hp, if_false, ne_eq, not_false_eq_true, false_implies, true_implies, and_true]
      at hcreate ⊢
    revert hcreate
    cases o 0 <;> simp [creationFailed, sentMessages]

/-- C8, amended, at a `Get` of the unknown property "Color" with no library
failure. -/
theorem get_property_when_reply_created_witness :
    (run (method_call DBUS_INTERFACE_PROPERTIES "Get"
      [Arg.string "org.example.TestInterface", Arg.string "Color"]) all_ok).1
      = NOT_YET_HANDLED ∧
    sentMessages (run (method_call DBUS_INTERFACE_PROPERTIES "Get"
      [Arg.string "org.example.TestInterface", Arg.string "Color"]) all_ok).2 = [] :=
  (get_property_when_reply_created
    (method_call DBUS_INTERFACE_PROPERTIES "Get"
      [Arg.string "org.example.TestInterface", Arg.string "Color"])
    all_ok "org.example.TestInterface" "Color" (by decide) rfl (by decide)).1 (by decide)

/-! ## Failures of the library calls -/

/-- C9, as stated, fails: for a `TestInterface.Ping` call, when appending "Pong"
to the reply fails (library call 1) and the other calls succeed, the handler
queues the reply without its argument and returns `HANDLED`. -/
theorem ping_handled_though_append_failed :
    run (method_call "org.example.TestInterface" "Ping" []) (failing [1]) =
      (HANDLED,
       [Event.created 0, Event.appendFailed 0,
        Event.sent 0 (method_return (method_call "org.example.TestInterface" "Ping" []) []),
        Event.unref 0]) ∧
    appendFailed (run (method_call "org.example.TestInterface" "Ping" []) (failing [1])).2
      = true := by
  decide

/-- C9, amended: for every method call of one of the seven routed pairs and
every outcome of the library calls, the handler returns `NEED_MEMORY` exactly
when creating a message (reply, error or signal) failed or a
`dbus_connection_send` failed; a failed append alone does not change the
result; and it returns `HANDLED` only when no creation and no send failed and
the reply was queued. -/
theorem need_memory_iff_creation_or_send_failed (m : DBusMessage) (o : Nat → Bool)
    (hroute : ∃ p ∈ routes, IsCall m p.1 p.2) :
    ((run m o).1 = NEED_MEMORY ↔
      (creationFailed (run m o).2 = true ∨ sendFailed (run m o).2 = true)) ∧
    ((run m o).1 = HANDLED →
      creationFailed (run m o).2 = false ∧ sendFailed (run m o).2 = false ∧
      ∃ r, replies (run m o).2 = [r]) := by
  simp only [routes, List.mem_cons, List.mem_singleton, List.not_mem_nil, or_false,
    exists_eq_or_imp, exists_eq_left] at hroute
  rcases hroute with h | h | h | h | h | h | h
  · rw [run_introspect m o h]
    cases o 0 <;> cases o 1 <;> cases o 2 <;>
      simp [creationFailed, sendFailed, replies, sentMessages, method_return]
  · cases hdec : dbus_message_get_args_ss m with
    | error e =>
      rw [run_get_decode_error m o e h hdec]
      cases o 0 <;> cases o 1 <;>
        simp [creationFailed, sendFailed, replies, sentMessages, error_reply]
    | ok ip =>
      obtain ⟨i, p⟩ := ip
      rw [run_get m o i p h hdec]
      by_cases hp : p = "Version" <;>
      cases o 0 <;> cases o 1 <;> cases o 2 <;>
        simp [hp, creationFailed, sendFailed, replies, sentMessages, method_return]
  · rw [run_get_all m o h]
    cases o 0 <;> cases o 9 <;>
      simp [creationFailed, sendFailed, replies, sentMessages_created, sentMessages_skip,
        any_skip, method_return]
    simp [sentMessages]
  · rw [run_ping m o h]
    cases o 0 <;> cases o 1 <;> cases o 2 <;>
      simp [creationFailed, sendFailed, replies, sentMessages, method_return]
  · cases hdec : dbus_message_get_args_s m with
    | error e =>
      rw [run_echo_decode_error m o e h hdec]
      cases o 0 <;> cases o 1 <;>
        simp [creationFailed, sendFailed, replies, sentMessages, error_reply]
    | ok x =>
      rw [run_echo m o x hdec h]
      cases o 0 <;> cases o 1 <;> cases o 2 <;>
        simp [creationFailed, sendFailed, replies, sentMessages, method_return]
  · rw [run_emit_signal m o h]
    cases o 0 <;> cases o 1 <;> cases o 2 <;> cases o 3 <;>
      simp [creationFailed, sendFailed, replies, sentMessages, method_return, signal_message]
  · rw [run_quit m o h]
    cases o 0 <;> cases o 1 <;>
      simp [creationFailed, sendFailed, replies, sentMessages, method_return]

/-- C9, amended, at a `Quit` call whose reply cannot be created. -/
theorem need_memory_iff_creation_or_send_failed_witness :
    (run (method_call "org.example.TestInterface" "Quit" []) (failing [0])).1 = NEED_MEMORY :=
  (need_memory_iff_creation_or_send_failed (method_call "org.example.TestInterface" "Quit" [])
    (failing [0]) ⟨("org.example.TestInterface", "Quit"), by decide, by decide⟩).1.2
    (Or.inl (by decide))

/-! ## Releasing the messages the handler creates -/

/-- C10 fails on the code: on the `TestInterface.EmitSignal` route the signal
message (object 0) is created and never released, both when it was sent (the
method return, object 1, takes its place and is the one released) and when
sending it failed and the handler returned at once. -/
theorem emit_signal_never_releases_signal :
    run (method_call "org.example.TestInterface" "EmitSignal" []) all_ok =
      (HANDLED,
       [Event.created 0,
        Event.sent 0 (signal_message "/org/example/TestObject" "org.example.TestInterface"
          "OnEmitSignal"),
        Event.created 1,
        Event.sent 1 (method_return (method_call "org.example.TestInterface" "EmitSignal" []) []),
        Event.unref 1]) ∧
    releasedIds (run (method_call "org.example.TestInterface" "EmitSignal" []) all_ok).2 = [1] ∧
    run (method_call "org.example.TestInterface" "EmitSignal" []) (failing [1]) =
      (NEED_MEMORY, [Event.created 0, Event.sendFailed 0]) ∧
    releasedIds (run (method_call "org.example.TestInterface" "EmitSignal" []) (failing [1])).2
      = [] := by
  decide

/-- On every route but `EmitSignal`, for every outcome of the library calls, the
message objects released are exactly the message objects created, each once. -/
theorem released_what_was_created (m : DBusMessage) (o : Nat → Bool)
    (hroute : ∃ p ∈ routes, IsCall m p.1 p.2)
    (hne : ¬ IsCall m "org.example.TestInterface" "EmitSignal") :
    releasedIds (run m o).2 = createdIds (run m o).2 := by
  simp only [routes, List.mem_cons, List.mem_singleton, List.not_mem_nil, or_false,
    exists_eq_or_imp, exists_eq_left] at hroute
  rcases hroute with h | h | h | h | h | h | h
  · rw [run_introspect m o h]
    cases o 0 <;> cases o 1 <;> cases o 2 <;> simp [releasedIds, createdIds]
  · cases hdec : dbus_message_get_args_ss m with
    | error e =>
      rw [run_get_decode_error m o e h hdec]
      cases o 0 <;> cases o 1 <;> simp [releasedIds, createdIds]
    | ok ip =>
      obtain ⟨i, p⟩ := ip
      rw [run_get m o i p h hdec]
      by_cases hp : p = "Version" <;>
      cases o 0 <;> cases o 1 <;> cases o 2 <;> simp [hp, releasedIds, createdIds]
  · rw [run_get_all m o h]
    cases o 0 <;> cases o 9 <;>
      simp only [if_true, if_false, Bool.false_eq_true, releasedIds_created,
        createdIds_created, releasedIds_skip, createdIds_skip] <;>
      simp [releasedIds, createdIds]
  · rw [run_ping m o h]
    cases o 0 <;> cases o 1 <;> cases o 2 <;> simp [releasedIds, createdIds]
  · cases hdec : dbus_message_get_args_s m with
    | error e =>
      rw [run_echo_decode_error m o e h hdec]
      cases o 0 <;> cases o 1 <;> simp [releasedIds, createdIds]
    | ok x =>
      rw [run_echo m o x hdec h]
      cases o 0 <;> cases o 1 <;> cases o 2 <;> simp [releasedIds, createdIds]
  · exact absurd h hne
  · rw [run_quit m o h]
    cases o 0 <;> cases o 1 <;> simp [releasedIds, createdIds]

end DBusServer
